import Mathlib

/-!
Shallow embedding of the job-status synchronization layer of the
cuistudio-mobile repository: the SSE live-channel client (useSSE), the
polling client (usePolling, retry-aware version), and the extraction-job
coordinator (useExtractionJob), together with theorems settling the
specification claims about them.

React hook state (useState values and useRef cells) is modelled as fields
of explicit state records; every event handler becomes a function from the
state (and the event payload) to the new state paired with the list of
callback invocations it performs.  Timers are modelled by boolean
"pending" flags; an event is delivered to a handler only while the
corresponding resource (the EventSource handle, the pending timer) exists.
-/

namespace JobTracker

/-! ## Data model (src/types/extraction.ts) -/

/-- `SourceType` enum from src/types/extraction.ts. -/
inductive SourceType
  | url
  | photo
  | paste
  | voice
deriving DecidableEq, Repr

/-- `ExtractionStatus` enum from src/types/extraction.ts. -/
inductive ExtractionStatus
  | pending
  | in_progress
  | completed
  | failed
deriving DecidableEq, Repr

/-- `ExtractionJob` interface from src/types/extraction.ts.  The TS
`number` progress field is modelled as `Int` (it may lie outside
[0, 100]). -/
structure ExtractionJob where
  id : String
  user_id : String
  source_type : SourceType
  source_urls : Option (List String) := none
  status : ExtractionStatus
  recipe_id : Option String := none
  error_message : Option String := none
  progress_percentage : Int
  current_step : Option String := none
  created_at : String := ""
  updated_at : String := ""
deriving DecidableEq, Repr

/-! ## Live channel client (useSSE) -/

/-- The state of one `useSSE` instance: the `useState` values
(`data`, `error`, `isConnected`, `reconnectAttempt`) and the `useRef`
cells (`eventSourceRef`, `reconnectTimeoutRef`, `isUnmountedRef`,
`isCompletedRef`).  The EventSource handle and the pending reconnect
timer are modelled by their presence.

`capturedAttempt` is the `reconnectAttempt` value frozen inside the
closures of the currently installed EventSource handlers.  Handlers are
installed exactly once per EventSource: `connect()` early-returns while
`eventSourceRef` is set, and the reconnect branch of `onerror` never
clears that ref, so every later `onerror` firing on the same handle
keeps reading this creation-time value, not the live counter. -/
structure SSEState where
  data : Option ExtractionJob := none
  error : Option String := none
  isConnected : Bool := false
  reconnectAttempt : Nat := 0
  eventSource : Bool := false
  reconnectTimeout : Bool := false
  isUnmounted : Bool := false
  isCompleted : Bool := false
  capturedAttempt : Nat := 0
deriving DecidableEq, Repr

/-- The configuration of `useSSE` relevant to reconnection: the
caller-supplied `shouldReconnect` predicate (default: always true) and
`maxReconnectAttempts` (default 5).  The delays only affect timing, which
the event-trace model abstracts. -/
structure SSEConfig where
  shouldReconnect : String → Bool := fun _ => true
  reconnectDelay : Nat := 3000
  maxReconnectAttempts : Nat := 5

/-- The initial state of a fresh `useSSE` instance. -/
def sseInit : SSEState := {}

/-- An SSE message payload as delivered by react-native-sse: either a
string (which `JSON.parse` may or may not decode to a job object; the
parse outcome is carried explicitly) or an already-parsed object. -/
inductive SSEPayload
  | str (parsed : Option ExtractionJob)
  | obj (j : ExtractionJob)
deriving DecidableEq, Repr

/-- The payload-decoding step shared by the message handlers: a string is
run through `JSON.parse` (modelled by the carried parse outcome), a
non-string is used as-is. -/
def parsePayload : SSEPayload → Option ExtractionJob
  | .str p => p
  | .obj j => some j

/-- The data carried by a named `error` event: absent, a JSON object with
an optional `message` field, or raw non-JSON text. -/
inductive ErrorEventData
  | noData
  | jsonWithMessage (m : Option String)
  | rawText (t : String)
deriving DecidableEq, Repr

/-- The error message the named `error` event handler derives from the
event data (`errorData.message || "SSE error event"`, falling back to the
raw text when the data is not JSON). -/
def errorEventMessage : ErrorEventData → String
  | .noData => "SSE error event"
  | .jsonWithMessage (some m) => m
  | .jsonWithMessage none => "SSE error event"
  | .rawText t => t

/-- The fixed message of the `Error` constructed by the `onerror`
(connection error) handler. -/
def connErrorMessage : String := "SSE connection error"

/-- Callback invocations performed by the SSE handlers, in order:
`onMessage`, `onComplete`, `onError`, and the scheduling of a reconnect
timer (`setTimeout(connect, reconnectDelay)`). -/
inductive SSEOut
  | msg (j : ExtractionJob)
  | complete (j : ExtractionJob)
  | err (e : String)
  | sched
deriving DecidableEq, Repr

/-- The terminal-status test used by the `job_update` handler
(`status === "completed" || status === "failed"`). -/
def isTerminalStatus (st : ExtractionStatus) : Bool :=
  st = ExtractionStatus.completed || st = ExtractionStatus.failed

/-- `cleanup` from useSSE: closes the EventSource handle if present,
clears the pending reconnect timer if present, and sets
`isConnected := false`. -/
def cleanup (s : SSEState) : SSEState :=
  { s with eventSource := false, reconnectTimeout := false, isConnected := false }

/-- `connect` from useSSE, parameterised by the `reconnectAttempt` value
the invoking closure carries: returns immediately when unmounted, when
the completion latch is set, or when an EventSource handle already
exists; otherwise runs `cleanup` and creates a new EventSource handle
whose installed handlers freeze `frozen` in their closures. -/
def connectWith (frozen : Nat) (s : SSEState) : SSEState :=
  if s.isUnmounted then s
  else if s.isCompleted then s
  else if s.eventSource then s
  else { cleanup s with eventSource := true, capturedAttempt := frozen }

/-- `connect` as invoked from the mount/url/token effect: the invoking
render's closure carries the current `reconnectAttempt` state value. -/
def connect (s : SSEState) : SSEState := connectWith s.reconnectAttempt s

/-- The `onopen` handler: sets connected, clears the error, resets the
reconnect-attempt counter. -/
def onOpen (s : SSEState) : SSEState :=
  if s.isUnmounted then s
  else { s with isConnected := true, error := none, reconnectAttempt := 0 }

/-- The generic `onmessage` handler: parses the payload, stores it and
forwards it to `onMessage`; a payload that fails to parse is logged and
dropped.  No terminal-status handling is performed here. -/
def onMessage (s : SSEState) (p : SSEPayload) : SSEState × List SSEOut :=
  if s.isUnmounted then (s, [])
  else
    match parsePayload p with
    | some j => ({ s with data := some j }, [SSEOut.msg j])
    | none => (s, [])

/-- The named `job_update` event handler: parses the payload, stores it
and forwards it to `onMessage`; if the status is terminal it sets the
completion latch, invokes `onComplete` and runs `cleanup`.  A payload
that fails to parse is logged and dropped. -/
def onJobUpdate (s : SSEState) (p : SSEPayload) : SSEState × List SSEOut :=
  if s.isUnmounted then (s, [])
  else
    match parsePayload p with
    | some j =>
        if isTerminalStatus j.status then
          (cleanup { s with data := some j, isCompleted := true },
           [SSEOut.msg j, SSEOut.complete j])
        else ({ s with data := some j }, [SSEOut.msg j])
    | none => (s, [])

/-- The named `error` event handler: derives a message from the event
data, stores it and forwards it to `onError`.  It neither evaluates the
reconnect policy nor tears anything down. -/
def onErrorEvent (s : SSEState) (d : ErrorEventData) : SSEState × List SSEOut :=
  if s.isUnmounted then (s, [])
  else ({ s with error := some (errorEventMessage d) }, [SSEOut.err (errorEventMessage d)])

/-- The `onerror` (connection error) handler: stores a fixed connection
error, clears `isConnected`, forwards the error to `onError`; then, if
the `shouldReconnect` predicate accepts the error and the attempt value
the handler's closure captured at EventSource creation is below the
maximum, sets the counter to that captured value plus one and schedules
a reconnect timer, otherwise runs `cleanup`.  The closure reads
`capturedAttempt`, not the live counter: the handlers of this
EventSource were installed once and are never replaced, so the guard
compares the creation-time value on every firing. -/
def onConnError (cfg : SSEConfig) (s : SSEState) : SSEState × List SSEOut :=
  if s.isUnmounted then (s, [])
  else
    let s1 := { s with error := some connErrorMessage, isConnected := false }
    if cfg.shouldReconnect connErrorMessage && decide (s.capturedAttempt < cfg.maxReconnectAttempts) then
      ({ s1 with reconnectAttempt := s.capturedAttempt + 1, reconnectTimeout := true },
       [SSEOut.err connErrorMessage, SSEOut.sched])
    else
      (cleanup s1, [SSEOut.err connErrorMessage])

/-- The reconnect timer firing: the pending timer is consumed, then the
scheduled `connect` closure runs unless the instance is unmounted.  The
timer holds the `connect` of the render that created the erroring
EventSource, so if it does create a new handle the frozen attempt value
is the old `capturedAttempt`, not the live counter. -/
def onReconnectTimer (s : SSEState) : SSEState :=
  let s0 := { s with reconnectTimeout := false }
  if s0.isUnmounted then s0 else connectWith s0.capturedAttempt s0

/-- Events that can be delivered to one `useSSE` instance.  EventSource
events reach their handlers only while the handle exists; a timer firing
only while the timer is pending; `unmount` is the effect cleanup. -/
inductive SSEEvent
  | opened
  | message (p : SSEPayload)
  | jobUpdate (p : SSEPayload)
  | namedError (d : ErrorEventData)
  | connError
  | timer
  | unmount
deriving DecidableEq, Repr

/-- One step of the SSE client: deliver one event, gated on the presence
of the resource that produces it. -/
def sseStep (cfg : SSEConfig) (s : SSEState) : SSEEvent → SSEState × List SSEOut
  | .opened => if s.eventSource then (onOpen s, []) else (s, [])
  | .message p => if s.eventSource then onMessage s p else (s, [])
  | .jobUpdate p => if s.eventSource then onJobUpdate s p else (s, [])
  | .namedError d => if s.eventSource then onErrorEvent s d else (s, [])
  | .connError => if s.eventSource then onConnError cfg s else (s, [])
  | .timer => if s.reconnectTimeout then (onReconnectTimer s, []) else (s, [])
  | .unmount => ({ cleanup s with isUnmounted := true }, [])

/-- Run the SSE client over a trace of events, collecting all callback
invocations in order. -/
def sseRun (cfg : SSEConfig) (s : SSEState) : List SSEEvent → SSEState × List SSEOut
  | [] => (s, [])
  | e :: es =>
      let p := sseStep cfg s e
      let q := sseRun cfg p.1 es
      (q.1, p.2 ++ q.2)

/-- Whether an output is the scheduling of a reconnect timer. -/
def isSched : SSEOut → Bool
  | .sched => true
  | _ => false

/-- The number of reconnect schedulings among a list of outputs. -/
def schedCount (l : List SSEOut) : Nat := (l.filter isSched).length

/-! ## Polling client (usePolling, retry-aware version) -/

/-- The state of one `usePolling` instance: the `useState` values
(`data`, `isPolling`, `error`), the pending scheduled fetch
(`timeoutRef`, modelled by its presence) and the consecutive-error
counter (`consecutiveErrorsRef`). -/
structure PollState (T : Type) where
  data : Option T := none
  isPolling : Bool := false
  error : Option String := none
  timeout : Bool := false
  consecutiveErrors : Nat := 0
deriving DecidableEq, Repr

/-- The `usePolling` options relevant to the claims: the stop predicate
and the consecutive-error budget (default 5; 0 means never stop on
errors).  The delays only affect timing. -/
structure PollConfig (T : Type) where
  shouldStopPolling : T → Bool
  interval : Nat := 2000
  maxConsecutiveErrors : Nat := 5
  errorRetryDelay : Option Nat := none

/-- The initial state of a fresh `usePolling` instance. -/
def pollInit (T : Type) : PollState T := {}

/-- Callback invocations performed by the polling client: `onComplete`
and `onError`. -/
inductive PollOut (T : Type)
  | complete (t : T)
  | err (e : String)
deriving DecidableEq, Repr

/-- The continuation of one `poll()` call, applied to the settled result
of the awaited `fn()`.  On success: store the result, clear the error,
reset the consecutive-error counter; if the stop predicate holds, stop
polling and invoke `onComplete`, otherwise schedule the next fetch.  On
failure: increment the counter, store the error, invoke `onError`; if
the budget is positive and reached, stop polling permanently with no
further schedule, otherwise schedule the next fetch after the retry
delay. -/
def poll {T : Type} (cfg : PollConfig T) (s : PollState T) :
    Except String T → PollState T × List (PollOut T)
  | .ok r =>
      let s1 := { s with data := some r, error := none, consecutiveErrors := 0,
                         timeout := false }
      if cfg.shouldStopPolling r then
        ({ s1 with isPolling := false }, [PollOut.complete r])
      else
        ({ s1 with timeout := true }, [])
  | .error e =>
      let n := s.consecutiveErrors + 1
      let s1 := { s with consecutiveErrors := n, error := some e, timeout := false }
      if 0 < cfg.maxConsecutiveErrors && decide (cfg.maxConsecutiveErrors ≤ n) then
        ({ s1 with isPolling := false }, [PollOut.err e])
      else
        ({ s1 with timeout := true }, [PollOut.err e])

/-- `startPolling`: sets `isPolling`, clears the error, resets the
consecutive-error counter (the immediate first `poll()` it fires is
consumed by the run driver). -/
def startPolling {T : Type} (s : PollState T) : PollState T :=
  { s with isPolling := true, error := none, consecutiveErrors := 0 }

/-- `stopPolling`: cancels the pending scheduled fetch, if any, and
clears `isPolling`.  Nothing else is touched. -/
def stopPolling {T : Type} (s : PollState T) : PollState T :=
  { s with timeout := false, isPolling := false }

/-- Run a polling sequence: the first fetch result is consumed
unconditionally (it is the fetch `startPolling` fires immediately);
each further result is consumed only while a next fetch is scheduled.
Returns the final state, the callback invocations, and the number of
fetches performed. -/
def pollRun {T : Type} (cfg : PollConfig T) (s : PollState T) :
    List (Except String T) → PollState T × List (PollOut T) × Nat
  | [] => (s, [], 0)
  | r :: rs =>
      let p := poll cfg s r
      if p.1.timeout then
        let q := pollRun cfg p.1 rs
        (q.1, p.2 ++ q.2.1, q.2.2 + 1)
      else (p.1, p.2, 1)

/-- The number of `onError` invocations among a list of polling outputs. -/
def pollErrCount {T : Type} (l : List (PollOut T)) : Nat :=
  (l.filter fun o => match o with | PollOut.err _ => true | _ => false).length

/-! ## Job coordinator (useExtractionJob) -/

/-- The `connectionType` values of useExtractionJob. -/
inductive ConnType
  | sse
  | polling
  | noConn
deriving DecidableEq, Repr

/-- The coordinator state of one `useExtractionJob` instance: the
`useState` values (`job`, `error`, `connectionType`,
`usePollingFallback`) and the completion latch (`hasCompletedRef`). -/
structure JobState where
  job : Option ExtractionJob := none
  error : Option String := none
  connectionType : ConnType := ConnType.noConn
  usePollingFallback : Bool := false
  hasCompleted : Bool := false
deriving DecidableEq, Repr

/-- The initial coordinator state. -/
def jobInit : JobState := {}

/-- `isJobComplete` from useExtractionJob: null is not complete; a job is
complete when its status is `COMPLETED` or `FAILED`. -/
def isJobComplete : Option ExtractionJob → Bool
  | none => false
  | some j => j.status = ExtractionStatus.completed || j.status = ExtractionStatus.failed

/-- `handleComplete` from useExtractionJob: if the latch is unset and the
job is complete, set the latch and invoke `onComplete` with the job.
The returned list holds the jobs passed to the consumer's `onComplete`. -/
def handleComplete (s : JobState) (j : ExtractionJob) : JobState × List ExtractionJob :=
  if !s.hasCompleted && isJobComplete (some j) then
    ({ s with hasCompleted := true }, [j])
  else (s, [])

/-- `handleUpdate` from useExtractionJob: store the snapshot as-is, clear
the error, then run `handleComplete` when the job is complete. -/
def handleUpdate (s : JobState) (j : ExtractionJob) : JobState × List ExtractionJob :=
  let s1 := { s with job := some j, error := none }
  if isJobComplete (some j) then handleComplete s1 j else (s1, [])

/-- `retry` from useExtractionJob: unconditionally resets the completion
latch, clears the error; if already on polling it restarts the polling
loop (an effect on the polling client), otherwise it forces the polling
fallback. -/
def retry (s : JobState) : JobState :=
  let s1 := { s with hasCompleted := false, error := none }
  if s1.connectionType = ConnType.polling then s1
  else { s1 with usePollingFallback := true }

/-- An inbound event the coordinator folds into its state: a snapshot on
the update path (`onMessage` of useSSE, the re-dispatch effect, or
polling data), a snapshot on the direct completion path (`onComplete` of
useSSE or of usePolling), or the consumer pressing retry. -/
inductive CoordEvent
  | update (j : ExtractionJob)
  | complete (j : ExtractionJob)
  | retryEvent
deriving DecidableEq, Repr

/-- One coordinator step. -/
def coordStep (s : JobState) : CoordEvent → JobState × List ExtractionJob
  | .update j => handleUpdate s j
  | .complete j => handleComplete s j
  | .retryEvent => (retry s, [])

/-- Fold a trace of coordinator events, collecting every `onComplete`
dispatch in order. -/
def coordRun (s : JobState) : List CoordEvent → JobState × List ExtractionJob
  | [] => (s, [])
  | e :: es =>
      let p := coordStep s e
      let q := coordRun p.1 es
      (q.1, p.2 ++ q.2)

/-- The snapshot carried by a coordinator event, if any. -/
def eventJob : CoordEvent → Option ExtractionJob
  | .update j => some j
  | .complete j => some j
  | .retryEvent => none

/-- The first terminal snapshot among the snapshots a trace delivers. -/
def firstTerminal (tr : List CoordEvent) : Option ExtractionJob :=
  (tr.filterMap eventJob).find? fun j => isJobComplete (some j)

/-- Whether `needle` is a leading segment of `hay`. -/
def startsWithChars : List Char → List Char → Bool
  | _, [] => true
  | [], _ :: _ => false
  | c :: cs, d :: ds => c = d && startsWithChars cs ds

/-- Whether `needle` occurs contiguously inside `hay`. -/
def containsChars : List Char → List Char → Bool
  | [], needle => needle.isEmpty
  | c :: rest, needle => startsWithChars (c :: rest) needle || containsChars rest needle

/-- JavaScript `String.prototype.includes`: whether `sub` occurs as a
contiguous substring of `s`. -/
def includesSub (s sub : String) : Bool := containsChars s.data sub.data

/-- `shouldReconnect` as useExtractionJob supplies it to useSSE: false
when the error message contains "403" or "401", otherwise true exactly
when no completion has been dispatched yet (`!hasCompletedRef.current`).
The latch value is passed explicitly here; in the source it is read from
the closed-over ref. -/
def extractionShouldReconnect (hasCompleted : Bool) (msg : String) : Bool :=
  if includesSub msg "403" || includesSub msg "401" then false
  else !hasCompleted

/-! ## Concrete sample values used by counterexamples and witnesses -/

/-- A completed job snapshot carrying a result identifier. -/
def jobDone : ExtractionJob :=
  { id := "job-1", user_id := "user-1", source_type := SourceType.photo,
    status := ExtractionStatus.completed, recipe_id := some "r1",
    progress_percentage := 100 }

/-- A failed job snapshot carrying an error message. -/
def jobFailedSample : ExtractionJob :=
  { id := "job-1", user_id := "user-1", source_type := SourceType.photo,
    status := ExtractionStatus.failed, error_message := some "extraction failed",
    progress_percentage := 100 }

/-- An in-progress job snapshot. -/
def jobRunningSample : ExtractionJob :=
  { id := "job-1", user_id := "user-1", source_type := SourceType.photo,
    status := ExtractionStatus.in_progress, progress_percentage := 40,
    current_step := some "parsing" }

/-- The default `useSSE` configuration (always-reconnect predicate,
5 attempts). -/
def sseDefaultConfig : SSEConfig := {}

/-- A concrete polling configuration over `Nat` whose stop predicate
never fires, with the default error budget of 5. -/
def pollNatConfig : PollConfig Nat := { shouldStopPolling := fun _ => false }

/-! ## Claim theorems -/

/-- Claim C9: the coordinator forwards every inbound snapshot unchanged
as the current job value — `handleUpdate` stores exactly the received
snapshot, performing no clamping or other modification of the progress
field (or any other field), including snapshots whose progress lies
outside [0, 100]. -/
theorem tracker_forwards_snapshot_unchanged :
    ∀ (s : JobState) (j : ExtractionJob), (handleUpdate s j).1.job = some j := by
  intro s j
  simp only [handleUpdate, handleComplete]
  split
  · split
    · rfl
    · rfl
  · rfl

/-- Claim C8: the live channel's `cleanup` (disconnect) and the polling
client's `stopPolling` are idempotent and total — repeating them changes
nothing, and on a fresh instance (no connection ever opened, no poll ever
started) they are no-ops; and `connect` does nothing when a connection
handle already exists. -/
theorem disconnect_stop_idempotent :
    (∀ s : SSEState, cleanup (cleanup s) = cleanup s)
    ∧ cleanup sseInit = sseInit
    ∧ (∀ (T : Type) (s : PollState T), stopPolling (stopPolling s) = stopPolling s)
    ∧ (∀ T : Type, stopPolling (pollInit T) = pollInit T)
    ∧ (∀ s : SSEState, s.eventSource = true → connect s = s) := by
  refine ⟨fun s => rfl, rfl, fun T s => rfl, fun T => rfl, ?_⟩
  intro s h
  simp [connect, connectWith, h]

/-- Witness for C8 at a concrete state with an open connection handle. -/
theorem disconnect_stop_idempotent_witness :
    connect (connect sseInit) = connect sseInit :=
  disconnect_stop_idempotent.2.2.2.2 (connect sseInit) (by decide)

/-- Claim C7: a malformed (unparseable) payload received on the live
channel — on either the generic message event or the `job_update`
event — is dropped after logging: the state (stored data, error,
reconnect counters) is completely unchanged, no callback fires, and
nothing is scheduled. -/
theorem malformed_payload_dropped :
    ∀ (cfg : SSEConfig) (s : SSEState) (p : SSEPayload), parsePayload p = none →
      sseStep cfg s (SSEEvent.message p) = (s, [])
      ∧ sseStep cfg s (SSEEvent.jobUpdate p) = (s, []) := by
  intro cfg s p h
  constructor
  · simp [sseStep, onMessage, h]
  · simp [sseStep, onJobUpdate, h]

/-- Witness for C7: a string payload that fails to parse, delivered to a
connected client, changes nothing. -/
theorem malformed_payload_dropped_witness :
    sseStep sseDefaultConfig (connect sseInit) (SSEEvent.message (SSEPayload.str none))
      = (connect sseInit, [])
    ∧ sseStep sseDefaultConfig (connect sseInit) (SSEEvent.jobUpdate (SSEPayload.str none))
      = (connect sseInit, []) :=
  malformed_payload_dropped sseDefaultConfig (connect sseInit) (SSEPayload.str none) rfl

/-- Counterexample to claim C6: on a terminal payload the generic
message handler and the `job_update` handler do NOT act identically —
the generic handler neither latches completion, nor dispatches
`onComplete`, nor tears the connection down. -/
theorem sse_handlers_differ_on_terminal :
    onMessage sseInit (SSEPayload.obj jobDone)
      ≠ onJobUpdate sseInit (SSEPayload.obj jobDone) := by
  decide

/-- Claim C6 (amended): the two payload handlers agree on every payload
whose parse fails or whose status is non-terminal; on a terminal payload
only the `job_update` handler performs terminal detection, completion
dispatch and teardown, while the generic message handler only stores and
forwards the snapshot. -/
theorem sse_message_jobupdate_handlers :
    (∀ (s : SSEState) (p : SSEPayload),
        (∀ j, parsePayload p = some j → isTerminalStatus j.status = false) →
        onMessage s p = onJobUpdate s p)
    ∧ (∀ (s : SSEState) (p : SSEPayload) (j : ExtractionJob),
        s.isUnmounted = false → parsePayload p = some j → isTerminalStatus j.status = true →
        onMessage s p = ({ s with data := some j }, [SSEOut.msg j])
        ∧ onJobUpdate s p
            = (cleanup { s with data := some j, isCompleted := true },
               [SSEOut.msg j, SSEOut.complete j])) := by
  constructor
  · intro s p h
    unfold onMessage onJobUpdate
    by_cases hu : s.isUnmounted = true
    · simp [hu]
    · cases hp : parsePayload p with
      | none => simp [hu, hp]
      | some j => simp [hu, hp, h j hp]
  · intro s p j hu hp ht
    constructor
    · simp [onMessage, hu, hp]
    · simp [onJobUpdate, hu, hp, ht]

/-- Witness for C6 (amended): a non-terminal payload is handled
identically; a terminal payload makes `job_update` latch and tear down. -/
theorem sse_message_jobupdate_handlers_witness :
    onMessage sseInit (SSEPayload.obj jobRunningSample)
      = onJobUpdate sseInit (SSEPayload.obj jobRunningSample)
    ∧ onJobUpdate sseInit (SSEPayload.obj jobDone)
      = (cleanup { sseInit with data := some jobDone, isCompleted := true },
         [SSEOut.msg jobDone, SSEOut.complete jobDone]) :=
  ⟨sse_message_jobupdate_handlers.1 sseInit (SSEPayload.obj jobRunningSample)
      (fun j h => by cases h; decide),
   (sse_message_jobupdate_handlers.2 sseInit (SSEPayload.obj jobDone) jobDone
      rfl rfl rfl).2⟩

/-- Counterexample to claim C2: after a genuine completion has been
dispatched, `retry()` followed by another terminal snapshot dispatches
the completion callback a second time — the latch is not protected. -/
theorem retry_after_completion_counterexample :
    (coordRun jobInit
        [CoordEvent.update jobDone, CoordEvent.retryEvent, CoordEvent.update jobDone]).2
      = [jobDone, jobDone] := by
  decide

/-- Claim C2 (amended): `retry()` clears the error state and
unconditionally resets the completed latch to false — even when a
completion has already been dispatched — so a terminal snapshot arriving
after `retry()` dispatches the completion callback again. -/
theorem retry_resets_latch_unconditionally :
    (∀ s : JobState, (retry s).hasCompleted = false ∧ (retry s).error = none)
    ∧ (∀ (s : JobState) (j : ExtractionJob),
        s.hasCompleted = true → isJobComplete (some j) = true →
        (coordStep (retry s) (CoordEvent.update j)).2 = [j]) := by
  constructor
  · intro s
    unfold retry
    dsimp only
    split <;> exact ⟨rfl, rfl⟩
  · intro s j _ ht
    have h1 : (retry s).hasCompleted = false := by
      unfold retry; dsimp only; split <;> rfl
    simp [coordStep, handleUpdate, handleComplete, ht, h1]

/-- Witness for C2 (amended): from a state whose completion has been
dispatched, `retry()` drops the latch and a completed snapshot is
dispatched again. -/
theorem retry_resets_latch_witness :
    (retry { jobInit with hasCompleted := true }).hasCompleted = false
    ∧ (coordStep (retry { jobInit with hasCompleted := true })
        (CoordEvent.update jobDone)).2 = [jobDone] :=
  ⟨(retry_resets_latch_unconditionally.1 { jobInit with hasCompleted := true }).1,
   retry_resets_latch_unconditionally.2 { jobInit with hasCompleted := true } jobDone
      rfl (by decide)⟩

/-- Once the coordinator latch is set, a retry-free trace dispatches
nothing further and the latch stays set. -/
theorem coordRun_latched :
    ∀ (tr : List CoordEvent) (s : JobState),
      s.hasCompleted = true → CoordEvent.retryEvent ∉ tr →
      (coordRun s tr).2 = [] ∧ (coordRun s tr).1.hasCompleted = true := by
  intro tr
  induction tr with
  | nil => intro s h _; exact ⟨rfl, h⟩
  | cons e es ih =>
    intro s h hm
    have hm2 : CoordEvent.retryEvent ∉ es := fun hx => hm (List.mem_cons_of_mem e hx)
    cases e with
    | update j =>
        have h1 : (coordStep s (CoordEvent.update j)).1.hasCompleted = true := by
          simp [coordStep, handleUpdate, handleComplete, h]
        have h2 : (coordStep s (CoordEvent.update j)).2 = [] := by
          simp [coordStep, handleUpdate, handleComplete, h]
        have h3 := ih _ h1 hm2
        exact ⟨by simp [coordRun, h2, h3.1], by simp [coordRun, h3.2]⟩
    | complete j =>
        have h1 : (coordStep s (CoordEvent.complete j)).1.hasCompleted = true := by
          simp [coordStep, handleComplete, h]
        have h2 : (coordStep s (CoordEvent.complete j)).2 = [] := by
          simp [coordStep, handleComplete, h]
        have h3 := ih _ h1 hm2
        exact ⟨by simp [coordRun, h2, h3.1], by simp [coordRun, h3.2]⟩
    | retryEvent => exact absurd (List.mem_cons_self _ _) hm

/-- From an unlatched coordinator state, a retry-free trace dispatches
the completion callback exactly on the first terminal snapshot the trace
delivers. -/
theorem coordRun_unlatched :
    ∀ (tr : List CoordEvent) (s : JobState),
      s.hasCompleted = false → CoordEvent.retryEvent ∉ tr →
      (coordRun s tr).2 = (firstTerminal tr).toList := by
  intro tr
  induction tr with
  | nil => intro s _ _; rfl
  | cons e es ih =>
    intro s h hm
    have hm2 : CoordEvent.retryEvent ∉ es := fun hx => hm (List.mem_cons_of_mem e hx)
    cases e with
    | update j =>
        cases ht : isJobComplete (some j) with
        | true =>
            have h1 : (coordStep s (CoordEvent.update j)).1.hasCompleted = true := by
              simp [coordStep, handleUpdate, handleComplete, h, ht]
            have h2 : (coordStep s (CoordEvent.update j)).2 = [j] := by
              simp [coordStep, handleUpdate, handleComplete, h, ht]
            have h3 := coordRun_latched es _ h1 hm2
            have hft : firstTerminal (CoordEvent.update j :: es) = some j := by
              simp [firstTerminal, eventJob, List.find?, ht]
            simp [coordRun, h2, h3.1, hft]
        | false =>
            have h1 : (coordStep s (CoordEvent.update j)).1.hasCompleted = false := by
              simp [coordStep, handleUpdate, ht, h]
            have h2 : (coordStep s (CoordEvent.update j)).2 = [] := by
              simp [coordStep, handleUpdate, ht]
            have h3 := ih _ h1 hm2
            have hft : firstTerminal (CoordEvent.update j :: es) = firstTerminal es := by
              simp [firstTerminal, eventJob, List.find?, ht]
            simp [coordRun, h2, h3, hft]
    | complete j =>
        cases ht : isJobComplete (some j) with
        | true =>
            have h1 : (coordStep s (CoordEvent.complete j)).1.hasCompleted = true := by
              simp [coordStep, handleComplete, h, ht]
            have h2 : (coordStep s (CoordEvent.complete j)).2 = [j] := by
              simp [coordStep, handleComplete, h, ht]
            have h3 := coordRun_latched es _ h1 hm2
            have hft : firstTerminal (CoordEvent.complete j :: es) = some j := by
              simp [firstTerminal, eventJob, List.find?, ht]
            simp [coordRun, h2, h3.1, hft]
        | false =>
            have h1 : (coordStep s (CoordEvent.complete j)).1.hasCompleted = false := by
              simp [coordStep, handleComplete, ht, h]
            have h2 : (coordStep s (CoordEvent.complete j)).2 = [] := by
              simp [coordStep, handleComplete, ht]
            have h3 := ih _ h1 hm2
            have hft : firstTerminal (CoordEvent.complete j :: es) = firstTerminal es := by
              simp [firstTerminal, eventJob, List.find?, ht]
            simp [coordRun, h2, h3, hft]
    | retryEvent => exact absurd (List.mem_cons_self _ _) hm

/-- Claim C1: for every retry-free sequence of job-status updates folded
into the coordinator — interleaved arbitrarily from the live channel and
the polling client, with duplicate and out-of-order terminal snapshots —
the `onComplete` dispatches are exactly the first terminal snapshot
delivered (one dispatch when a terminal snapshot arrives, none
otherwise), regardless of which transport delivered it. -/
theorem completion_dispatched_exactly_once :
    ∀ tr : List CoordEvent, CoordEvent.retryEvent ∉ tr →
      (coordRun jobInit tr).2 = (firstTerminal tr).toList :=
  fun tr h => coordRun_unlatched tr jobInit rfl h

/-- Witness for C1: a trace with a duplicate terminal snapshot on the
completion path, a repeated terminal update and a stale failed snapshot
dispatches only the first terminal snapshot. -/
theorem completion_dispatched_exactly_once_witness :
    (coordRun jobInit
        [CoordEvent.update jobRunningSample, CoordEvent.complete jobDone,
         CoordEvent.update jobDone, CoordEvent.update jobFailedSample]).2
      = (firstTerminal
          [CoordEvent.update jobRunningSample, CoordEvent.complete jobDone,
           CoordEvent.update jobDone, CoordEvent.update jobFailedSample]).toList :=
  completion_dispatched_exactly_once
    [CoordEvent.update jobRunningSample, CoordEvent.complete jobDone,
     CoordEvent.update jobDone, CoordEvent.update jobFailedSample] (by decide)

/-- Counterexample to claim C4: the coordinator's `shouldReconnect`
predicate does NOT evaluate to false exactly when the error carries the
401/403 information — it is also false on the plain connection-error
message (which carries neither "401" nor "403") once a completion has
been dispatched. -/
theorem shouldReconnect_not_iff_auth :
    extractionShouldReconnect true connErrorMessage = false
    ∧ includesSub connErrorMessage "401" = false
    ∧ includesSub connErrorMessage "403" = false := by
  decide

/-- Claim C4 (amended): an error surfaced through the named error-event
channel is forwarded exactly once via the error callback and never
schedules a reconnection nor tears anything down (that handler only
stores and forwards the error); and the coordinator's `shouldReconnect`
predicate evaluates to false whenever the error message contains "401"
or "403" (it is additionally false once a completion has been
dispatched). -/
theorem auth_error_no_reconnect :
    (∀ (cfg : SSEConfig) (s : SSEState) (d : ErrorEventData),
        s.eventSource = true → s.isUnmounted = false →
        sseStep cfg s (SSEEvent.namedError d)
          = ({ s with error := some (errorEventMessage d) },
             [SSEOut.err (errorEventMessage d)]))
    ∧ (∀ (hasCompleted : Bool) (msg : String),
        includesSub msg "401" = true ∨ includesSub msg "403" = true →
        extractionShouldReconnect hasCompleted msg = false) := by
  constructor
  · intro cfg s d h1 h2
    simp [sseStep, onErrorEvent, h1, h2]
  · intro hc msg h
    unfold extractionShouldReconnect
    rcases h with h | h <;> simp [h]

/-- Witness for C4 (amended): a 401 surfaced on the named error channel
is forwarded once with nothing scheduled, and `shouldReconnect` rejects
a message containing "401". -/
theorem auth_error_no_reconnect_witness :
    sseStep sseDefaultConfig (connect sseInit)
        (SSEEvent.namedError (ErrorEventData.rawText "401 unauthorized"))
      = ({ connect sseInit with error := some "401 unauthorized" },
         [SSEOut.err "401 unauthorized"])
    ∧ extractionShouldReconnect false "HTTP 401" = false :=
  ⟨auth_error_no_reconnect.1 sseDefaultConfig (connect sseInit)
      (ErrorEventData.rawText "401 unauthorized") rfl rfl,
   auth_error_no_reconnect.2 false "HTTP 401" (Or.inl (by decide))⟩

/-- Claim C3 (code bug): with the default configuration
(`maxReconnectAttempts = 5`, always-true reconnect predicate), one
EventSource instance receiving eight consecutive connection errors
schedules a reconnection attempt on every one of the eight, and the
attempt counter ends at 1.  The `onerror` closure compares the attempt
value captured at EventSource creation (0) against the maximum —
handlers are installed once, `connect()` early-returns while the handle
exists and the reconnect branch never clears it — so the budget never
suppresses scheduling and the counter saturates instead of strictly
increasing toward the maximum. -/
theorem reconnect_budget_never_trips :
    schedCount (sseRun sseDefaultConfig (connect sseInit)
        (List.replicate 8 SSEEvent.connError)).2 = 8
    ∧ (sseRun sseDefaultConfig (connect sseInit)
        (List.replicate 8 SSEEvent.connError)).1.reconnectAttempt = 1
    ∧ sseDefaultConfig.maxReconnectAttempts = 5 := by
  decide

/-- Claim C5: under `usePolling`, a successful fetch resets the
consecutive-error counter to zero; a failed fetch increments it and
invokes the error callback exactly once; when the budget is positive and
reached, polling halts with no further fetch scheduled; and concretely,
from a fresh start with `maxConsecutiveErrors = 5`, five consecutive
failures perform exactly five fetches with exactly five error-callback
invocations, a sixth supplied result is never consumed, and polling is
permanently halted. -/
theorem polling_error_budget :
    (∀ (T : Type) (cfg : PollConfig T) (s : PollState T) (r : T),
        (poll cfg s (Except.ok r)).1.consecutiveErrors = 0)
    ∧ (∀ (T : Type) (cfg : PollConfig T) (s : PollState T) (e : String),
        (poll cfg s (Except.error e)).1.consecutiveErrors = s.consecutiveErrors + 1
        ∧ (poll cfg s (Except.error e)).2 = [PollOut.err e])
    ∧ (∀ (T : Type) (cfg : PollConfig T) (s : PollState T) (e : String),
        0 < cfg.maxConsecutiveErrors →
        cfg.maxConsecutiveErrors ≤ s.consecutiveErrors + 1 →
        (poll cfg s (Except.error e)).1.isPolling = false
        ∧ (poll cfg s (Except.error e)).1.timeout = false)
    ∧ (∀ (T : Type) (cfg : PollConfig T), cfg.maxConsecutiveErrors = 5 →
        ∀ e1 e2 e3 e4 e5 e6 : String,
          pollRun cfg (startPolling (pollInit T))
            [Except.error e1, Except.error e2, Except.error e3,
             Except.error e4, Except.error e5, Except.error e6]
          = (⟨none, false, some e5, false, 5⟩,
             [PollOut.err e1, PollOut.err e2, PollOut.err e3,
              PollOut.err e4, PollOut.err e5], 5)) := by
  refine ⟨?_, ?_, ?_, ?_⟩
  · intro T cfg s r
    simp only [poll]
    split <;> rfl
  · intro T cfg s e
    constructor
    · simp only [poll]
      split <;> rfl
    · simp only [poll]
      split <;> rfl
  · intro T cfg s e h1 h2
    have hd : (0 < cfg.maxConsecutiveErrors
        && decide (cfg.maxConsecutiveErrors ≤ s.consecutiveErrors + 1)) = true := by
      simp [h1, h2]
    simp [poll, hd]
  · intro T cfg hmax e1 e2 e3 e4 e5 e6
    simp [pollRun, poll, startPolling, pollInit, hmax]

/-- Witness for C5 at a concrete configuration over `Nat`: a state one
failure short of the budget halts on the next failure, and six supplied
consecutive failures from a fresh start yield exactly five fetches and
five error-callback invocations. -/
theorem polling_error_budget_witness :
    ((poll pollNatConfig
        { pollInit Nat with consecutiveErrors := 4 } (Except.error "boom")).1.isPolling = false
      ∧ (poll pollNatConfig
          { pollInit Nat with consecutiveErrors := 4 } (Except.error "boom")).1.timeout = false)
    ∧ pollRun pollNatConfig (startPolling (pollInit Nat))
        [Except.error "a", Except.error "b", Except.error "c",
         Except.error "d", Except.error "e", Except.error "f"]
      = (⟨none, false, some "e", false, 5⟩,
         [PollOut.err "a", PollOut.err "b", PollOut.err "c",
          PollOut.err "d", PollOut.err "e"], 5) :=
  ⟨polling_error_budget.2.2.1 Nat pollNatConfig
      { pollInit Nat with consecutiveErrors := 4 } "boom" (by decide) (by decide),
   polling_error_budget.2.2.2 Nat pollNatConfig rfl "a" "b" "c" "d" "e" "f"⟩

/-- Claim C10 (implicit): `stopPolling` modifies only the pending-timer
handle and the `isPolling` flag — data, error and the consecutive-error
counter are untouched — and it does not cancel a fetch already in
flight: the continuation of such a fetch still stores its result or
error, consults the stop predicate, fires the callbacks, and, when the
stop predicate is false (or, on error, the budget is not exhausted),
schedules a further fetch. -/
theorem stop_polling_frame_inflight :
    (∀ (T : Type) (s : PollState T),
        (stopPolling s).data = s.data ∧ (stopPolling s).error = s.error
        ∧ (stopPolling s).consecutiveErrors = s.consecutiveErrors
        ∧ (stopPolling s).timeout = false ∧ (stopPolling s).isPolling = false)
    ∧ (∀ (T : Type) (cfg : PollConfig T) (s : PollState T) (r : T),
        cfg.shouldStopPolling r = false →
        (poll cfg (stopPolling s) (Except.ok r)).1.data = some r
        ∧ (poll cfg (stopPolling s) (Except.ok r)).1.timeout = true)
    ∧ (∀ (T : Type) (cfg : PollConfig T) (s : PollState T) (r : T),
        cfg.shouldStopPolling r = true →
        (poll cfg (stopPolling s) (Except.ok r)).2 = [PollOut.complete r])
    ∧ (∀ (T : Type) (cfg : PollConfig T) (s : PollState T) (e : String),
        (0 < cfg.maxConsecutiveErrors → s.consecutiveErrors + 1 < cfg.maxConsecutiveErrors) →
        (poll cfg (stopPolling s) (Except.error e)).1.error = some e
        ∧ (poll cfg (stopPolling s) (Except.error e)).2 = [PollOut.err e]
        ∧ (poll cfg (stopPolling s) (Except.error e)).1.timeout = true) := by
  refine ⟨fun T s => ⟨rfl, rfl, rfl, rfl, rfl⟩, ?_, ?_, ?_⟩
  · intro T cfg s r h
    constructor <;> simp [poll, h, stopPolling]
  · intro T cfg s r h
    simp [poll, h]
  · intro T cfg s e h
    have hd : (0 < cfg.maxConsecutiveErrors
        && decide (cfg.maxConsecutiveErrors ≤ (stopPolling s).consecutiveErrors + 1)) = false := by
      rcases Nat.eq_zero_or_pos cfg.maxConsecutiveErrors with h0 | h0
      · simp [h0]
      · have := h h0
        simp only [stopPolling]
        simp only [Bool.and_eq_false_iff, decide_eq_false_iff_not]
        right
        omega
    refine ⟨?_, ?_, ?_⟩ <;> simp [poll, hd]

/-- Witness for C10 at a concrete configuration over `Nat`: after
`stopPolling`, an in-flight successful fetch whose stop predicate is
false stores its value and schedules the next fetch; an in-flight failed
fetch within budget stores the error, invokes the error callback and
reschedules. -/
theorem stop_polling_frame_inflight_witness :
    ((poll pollNatConfig (stopPolling { pollInit Nat with timeout := true })
        (Except.ok 7)).1.data = some 7
      ∧ (poll pollNatConfig (stopPolling { pollInit Nat with timeout := true })
          (Except.ok 7)).1.timeout = true)
    ∧ ((poll pollNatConfig (stopPolling { pollInit Nat with timeout := true })
          (Except.error "net")).1.error = some "net"
        ∧ (poll pollNatConfig (stopPolling { pollInit Nat with timeout := true })
            (Except.error "net")).2 = [PollOut.err "net"]
        ∧ (poll pollNatConfig (stopPolling { pollInit Nat with timeout := true })
            (Except.error "net")).1.timeout = true) :=
  ⟨stop_polling_frame_inflight.2.1 Nat pollNatConfig
      { pollInit Nat with timeout := true } 7 rfl,
   stop_polling_frame_inflight.2.2.2 Nat pollNatConfig
      { pollInit Nat with timeout := true } "net" (by intro h; decide)⟩

end JobTracker
